import Mathlib

/-!
# Verification of the staging stack descriptor

Shallow embedding of src/infra/lib/staging-stack.ts: the `StagingStack`
CDK construct builds, from a small configuration record, a declarative
descriptor of a cloud environment (VPC, buckets, queues, cluster, task,
service, load balancer, listeners, outputs).  Every definition below is
translated from that source file; the theorems settle the claims of the
specification against it.
-/

namespace DmsInfra

/-- The subnet tiers used by the VPC construct in the source
(ec2.SubnetType.PUBLIC and ec2.SubnetType.PRIVATE_WITH_NAT). -/
inductive SubnetType where
  | PUBLIC
  | PRIVATE_WITH_NAT
deriving DecidableEq, Repr

/-- One entry of the subnetConfiguration list passed to the Vpc
construct: a name, a tier, and a per-zone CIDR mask. -/
structure SubnetConfiguration where
  name : String
  subnetType : SubnetType
  cidrMask : Nat
deriving DecidableEq, Repr

/-- A concrete subnet of the produced descriptor: the provisioning
engine creates one subnet per configuration entry per availability
zone; az is the zone index. -/
structure Subnet where
  name : String
  az : Nat
  subnetType : SubnetType
  cidrMask : Nat
deriving DecidableEq, Repr

/-- The Vpc resource as declared in the source: CIDR block, maximum
availability zone count, NAT gateway count and the subnet
configuration list. -/
structure Vpc where
  cidr : String
  maxAzs : Nat
  natGateways : Nat
  subnetConfiguration : List SubnetConfiguration
deriving DecidableEq, Repr

/-- The subnets of the VPC: CDK expands the subnet configuration by
creating, for each configuration entry, one subnet in each of the
maxAzs availability zones. -/
def Vpc.subnets (v : Vpc) : List Subnet :=
  v.subnetConfiguration.flatMap (fun c =>
    (List.range v.maxAzs).map (fun az =>
      { name := c.name, az := az, subnetType := c.subnetType, cidrMask := c.cidrMask }))

/-- The public subnets of the VPC (tier PUBLIC). -/
def Vpc.publicSubnets (v : Vpc) : List Subnet :=
  v.subnets.filter (fun s => s.subnetType == SubnetType.PUBLIC)

/-- The private subnets of the VPC (tier PRIVATE_WITH_NAT). -/
def Vpc.privateSubnets (v : Vpc) : List Subnet :=
  v.subnets.filter (fun s => s.subnetType == SubnetType.PRIVATE_WITH_NAT)

/-- A PRIVATE_WITH_NAT subnet has its default route through the shared
NAT gateway; a PUBLIC subnet routes through the internet gateway
directly.  This is the routing meaning of the two tiers. -/
def Subnet.routedViaNat (s : Subnet) : Bool :=
  s.subnetType == SubnetType.PRIVATE_WITH_NAT

/-- An S3 bucket as declared in the source: a name, RemovalPolicy
DESTROY, autoDeleteObjects. -/
structure Bucket where
  bucketName : String
  removalPolicyDestroy : Bool
  autoDeleteObjects : Bool
deriving DecidableEq, Repr

/-- The dead letter binding of an SQS queue: the name of the target
queue and the maxReceiveCount redelivery threshold. -/
structure DeadLetterQueue where
  queueName : String
  maxReceiveCount : Nat
deriving DecidableEq, Repr

/-- An SQS queue: its name and its optional dead letter binding. -/
structure Queue where
  queueName : String
  deadLetterQueue : Option DeadLetterQueue
deriving DecidableEq, Repr

/-- One IAM policy statement: an action list and a resource list. -/
structure PolicyStatement where
  actions : List String
  resources : List String
deriving DecidableEq, Repr

/-- A container port mapping (containerPort only, as in the source). -/
structure PortMapping where
  containerPort : Nat
deriving DecidableEq, Repr

/-- A value of a container environment variable.  In the source these
are CDK tokens referencing other resources, resolved by the
provisioning engine: a bucket name, a queue URL, or the stack region. -/
inductive EnvValue where
  | bucketNameRef (bucketName : String)
  | queueUrlRef (queueName : String)
  | regionRef
deriving DecidableEq, Repr

/-- The container definition added to the task: image repository name,
log retention (ONE_WEEK, awsLogs driver with stream name lizdms),
environment variable bindings and port mappings. -/
structure ContainerDefinition where
  name : String
  imageRepository : String
  logStreamName : String
  logRetentionDays : Nat
  environment : List (String × EnvValue)
  portMappings : List PortMapping
deriving DecidableEq, Repr

/-- The Fargate task definition: CPU units, memory limit, the task
role policy statements and the containers. -/
structure TaskDefinition where
  cpu : Nat
  memoryLimitMiB : Nat
  taskRolePolicy : List PolicyStatement
  containers : List ContainerDefinition
deriving DecidableEq, Repr

/-- The port at which an ECS service registers its tasks in a target
group: CDK uses the default (first) container of the task definition
and the containerPort of its first port mapping. -/
def TaskDefinition.defaultContainerPort (t : TaskDefinition) : Option Nat :=
  match t.containers.head? with
  | some c => c.portMappings.head?.map (fun m => m.containerPort)
  | none => none

/-- The Fargate service: owning cluster, replica count and network
placement (assignPublicIp false puts tasks in the private subnets with
no public address). -/
structure FargateService where
  clusterName : String
  desiredCount : Nat
  assignPublicIp : Bool
deriving DecidableEq, Repr

/-- The health check attached to a target group: a path and the
expected HTTP status codes. -/
structure HealthCheck where
  path : String
  healthyHttpCodes : String
deriving DecidableEq, Repr

/-- The target group created by addTargets: the target group port
attribute (80 in the source), the port at which the ECS service
registers its tasks (the container port of the default container,
where forwarded traffic is actually delivered), and the health
check. -/
structure TargetGroup where
  port : Nat
  registeredPort : Option Nat
  healthCheck : Option HealthCheck
deriving DecidableEq, Repr

/-- An action of a load balancer listener: forward to a target group,
or redirect to another protocol and port (permanent flag as in the
source). -/
inductive ListenerAction where
  | forward (targetGroup : TargetGroup)
  | redirect (protocol : String) (port : String) (permanent : Bool)
deriving DecidableEq, Repr

/-- A load balancer listener: its port, its certificate references and
its actions (the source installs exactly one action on each). -/
structure Listener where
  port : Nat
  certificates : List String
  actions : List ListenerAction
deriving DecidableEq, Repr

/-- The configuration record accepted by the StagingStack constructor
(interface StagingStackProps); every field is optional. -/
structure StagingStackProps where
  vpcCidr : Option String
  publicSubnetMask : Option Nat
  privateSubnetMask : Option Nat
  maxAzs : Option Nat
deriving DecidableEq, Repr

/-- Default address block (source: prop default 10.0.0.0/16). -/
def defaultVpcCidr : String := "10.0.0.0/16"

/-- Default public subnet mask (source: prop default 24). -/
def defaultPublicSubnetMask : Nat := 24

/-- Default private subnet mask (source: prop default 24). -/
def defaultPrivateSubnetMask : Nat := 24

/-- Default availability zone count (source: prop default 2). -/
def defaultMaxAzs : Nat := 2

/-- The certificate ARN referenced by the HTTPS listener. -/
def certificateArn : String :=
  "arn:aws:acm:us-east-2:502826260777:certificate/38022fb5-d579-401b-8b62-90c47bb6c2af"

/-- The full descriptor produced by one StagingStack instance. -/
structure StagingStack where
  vpc : Vpc
  docsBucket : Bucket
  outputsBucket : Bucket
  dlq : Queue
  queue : Queue
  clusterName : String
  taskDef : TaskDefinition
  service : FargateService
  albInternetFacing : Bool
  listeners : List Listener
  outputs : List String
deriving DecidableEq, Repr

/-- The two queues of the descriptor, in declaration order. -/
def StagingStack.queues (s : StagingStack) : List Queue :=
  [s.dlq, s.queue]

/-- The HTTPS listener of the descriptor (the listener on port 443). -/
def StagingStack.httpsListener (s : StagingStack) : Option Listener :=
  s.listeners.find? (fun l => l.port == 443)

/-- The HTTP listener of the descriptor (the listener on port 80). -/
def StagingStack.httpListener (s : StagingStack) : Option Listener :=
  s.listeners.find? (fun l => l.port == 80)

/-- The redelivery threshold of the primary queue, when it has a dead
letter binding. -/
def StagingStack.redeliveryThreshold (s : StagingStack) : Option Nat :=
  s.queue.deadLetterQueue.map (fun b => b.maxReceiveCount)

/-- Construction of the descriptor, following the constructor body of
StagingStack in src/infra/lib/staging-stack.ts statement by statement. -/
def mkStagingStack (props : StagingStackProps) : StagingStack :=
  -- Configurable settings: each ?? default from the source.
  let vpcCidr := props.vpcCidr.getD defaultVpcCidr
  let publicSubnetMask := props.publicSubnetMask.getD defaultPublicSubnetMask
  let privateSubnetMask := props.privateSubnetMask.getD defaultPrivateSubnetMask
  let maxAzs := props.maxAzs.getD defaultMaxAzs
  -- VPC
  let vpc : Vpc :=
    { cidr := vpcCidr
      maxAzs := maxAzs
      natGateways := 1
      subnetConfiguration :=
        [ { name := "Public", subnetType := SubnetType.PUBLIC, cidrMask := publicSubnetMask },
          { name := "Private", subnetType := SubnetType.PRIVATE_WITH_NAT,
            cidrMask := privateSubnetMask } ] }
  -- S3 buckets
  let docsBucket : Bucket :=
    { bucketName := "lizdms-staging-docs", removalPolicyDestroy := true,
      autoDeleteObjects := true }
  let outputsBucket : Bucket :=
    { bucketName := "lizdms-staging-outputs", removalPolicyDestroy := true,
      autoDeleteObjects := true }
  -- SQS + DLQ
  let dlq : Queue :=
    { queueName := "lizdms-staging-processing-dlq", deadLetterQueue := none }
  let queue : Queue :=
    { queueName := "lizdms-staging-processing",
      deadLetterQueue := some { queueName := dlq.queueName, maxReceiveCount := 3 } }
  -- Task definition, then addToTaskRolePolicy with one statement
  let taskDefBase : TaskDefinition :=
    { cpu := 256, memoryLimitMiB := 512, taskRolePolicy := [], containers := [] }
  let taskDefWithPolicy : TaskDefinition :=
    { taskDefBase with
      taskRolePolicy := taskDefBase.taskRolePolicy ++
        [ { actions := ["s3:GetObject", "s3:PutObject", "sqs:SendMessage"],
            resources := ["*"] } ] }
  -- Container (addContainer), then addPortMappings with containerPort 3000
  let container : ContainerDefinition :=
    { name := "ApiContainer"
      imageRepository := "lizdms-api"
      logStreamName := "lizdms"
      logRetentionDays := 7
      environment :=
        [ ("DOCS_BUCKET", EnvValue.bucketNameRef docsBucket.bucketName),
          ("OUTPUTS_BUCKET", EnvValue.bucketNameRef outputsBucket.bucketName),
          ("QUEUE_URL", EnvValue.queueUrlRef queue.queueName),
          ("AWS_REGION", EnvValue.regionRef) ]
      portMappings := [] }
  let containerWithPort : ContainerDefinition :=
    { container with portMappings := container.portMappings ++ [ { containerPort := 3000 } ] }
  let taskDef : TaskDefinition := { taskDefWithPolicy with containers := [containerWithPort] }
  -- ECS service
  let service : FargateService :=
    { clusterName := "lizdms-staging-cluster", desiredCount := 1, assignPublicIp := false }
  -- HTTPS listener targets: target group port 80, health check path /
  -- with healthy code 200; the ECS service registers its tasks at the
  -- container port of the default container.
  let ecsTargets : TargetGroup :=
    { port := 80
      registeredPort := taskDef.defaultContainerPort
      healthCheck := some { path := "/", healthyHttpCodes := "200" } }
  let httpsListener : Listener :=
    { port := 443, certificates := [certificateArn],
      actions := [ListenerAction.forward ecsTargets] }
  -- HTTP to HTTPS redirect listener
  let httpRedirect : Listener :=
    { port := 80, certificates := [],
      actions := [ListenerAction.redirect "HTTPS" "443" true] }
  { vpc := vpc
    docsBucket := docsBucket
    outputsBucket := outputsBucket
    dlq := dlq
    queue := queue
    clusterName := "lizdms-staging-cluster"
    taskDef := taskDef
    service := service
    albInternetFacing := true
    listeners := [httpsListener, httpRedirect]
    outputs := ["AlbDnsName", "VpcCidr", "PublicSubnets", "PrivateSubnets"] }

/-- Descriptor construction as a fallible step: the constructor body
contains no validation and no throwing code of its own (all validation
is delegated to the external provisioning engine), so construction
always succeeds. -/
def synthStagingStack (props : StagingStackProps) : Except String StagingStack :=
  Except.ok (mkStagingStack props)

/-- The configuration with every optional field omitted. -/
def defaultProps : StagingStackProps :=
  { vpcCidr := none, publicSubnetMask := none, privateSubnetMask := none, maxAzs := none }

/-! ## Helper lemmas -/

/-- Filtering a mapped list keeps everything when the predicate holds
on every image. -/
theorem filter_map_all_true {α β : Type} (p : α → Bool) (f : β → α) (l : List β)
    (h : ∀ b, p (f b) = true) : (l.map f).filter p = l.map f := by
  rw [List.filter_map]
  congr 1
  apply List.filter_eq_self.mpr
  intro b _
  exact h b

/-- Filtering a mapped list drops everything when the predicate fails
on every image. -/
theorem filter_map_all_false {α β : Type} (p : α → Bool) (f : β → α) (l : List β)
    (h : ∀ b, p (f b) = false) : (l.map f).filter p = [] := by
  rw [List.filter_map]
  have hnil : l.filter (p ∘ f) = [] := by
    apply List.filter_eq_nil_iff.mpr
    intro b _
    simp [h b]
  rw [hnil, List.map_nil]

/-- Closed form of the subnet list of the produced VPC: one Public
subnet per zone index followed by one Private subnet per zone index. -/
theorem mkStagingStack_subnets (props : StagingStackProps) :
    (mkStagingStack props).vpc.subnets =
      (List.range (props.maxAzs.getD defaultMaxAzs)).map (fun az =>
        { name := "Public", az := az, subnetType := SubnetType.PUBLIC,
          cidrMask := props.publicSubnetMask.getD defaultPublicSubnetMask }) ++
      (List.range (props.maxAzs.getD defaultMaxAzs)).map (fun az =>
        { name := "Private", az := az, subnetType := SubnetType.PRIVATE_WITH_NAT,
          cidrMask := props.privateSubnetMask.getD defaultPrivateSubnetMask }) := by
  simp [mkStagingStack, Vpc.subnets]

/-- Closed form of the public subnet list of the produced VPC. -/
theorem mkStagingStack_publicSubnets (props : StagingStackProps) :
    (mkStagingStack props).vpc.publicSubnets =
      (List.range (props.maxAzs.getD defaultMaxAzs)).map (fun az =>
        { name := "Public", az := az, subnetType := SubnetType.PUBLIC,
          cidrMask := props.publicSubnetMask.getD defaultPublicSubnetMask }) := by
  unfold Vpc.publicSubnets
  rw [mkStagingStack_subnets, List.filter_append,
      filter_map_all_true _ _ _ (fun b => rfl),
      filter_map_all_false _ _ _ (fun b => rfl),
      List.append_nil]

/-- Closed form of the private subnet list of the produced VPC. -/
theorem mkStagingStack_privateSubnets (props : StagingStackProps) :
    (mkStagingStack props).vpc.privateSubnets =
      (List.range (props.maxAzs.getD defaultMaxAzs)).map (fun az =>
        { name := "Private", az := az, subnetType := SubnetType.PRIVATE_WITH_NAT,
          cidrMask := props.privateSubnetMask.getD defaultPrivateSubnetMask }) := by
  unfold Vpc.privateSubnets
  rw [mkStagingStack_subnets, List.filter_append,
      filter_map_all_false _ _ _ (fun b => rfl),
      filter_map_all_true _ _ _ (fun b => rfl),
      List.nil_append]

/-! ## Claims -/

/-- C1: for every configuration input, the produced descriptor has as
many public subnets as private subnets, and both counts equal the
configured zone count (the maxAzs option, defaulted to 2 when
omitted). -/
theorem C1_subnet_counts (props : StagingStackProps) :
    ((mkStagingStack props).vpc.publicSubnets).length
        = (mkStagingStack props).vpc.maxAzs ∧
    ((mkStagingStack props).vpc.privateSubnets).length
        = (mkStagingStack props).vpc.maxAzs ∧
    (mkStagingStack props).vpc.maxAzs = props.maxAzs.getD defaultMaxAzs := by
  refine ⟨?_, ?_, rfl⟩
  · rw [mkStagingStack_publicSubnets]
    simp only [List.length_map, List.length_range]
    rfl
  · rw [mkStagingStack_privateSubnets]
    simp only [List.length_map, List.length_range]
    rfl

/-- C2: in every descriptor instance, the HTTPS listener has a single
forwarding action whose target group registers the ECS service at the
port declared in the container port mapping (3000), and that target
group carries a health check given by a path and an expected HTTP
status code. -/
theorem C2_https_forwarding (props : StagingStackProps) :
    ∃ tg : TargetGroup, ∃ c : ContainerDefinition,
      (mkStagingStack props).httpsListener.map Listener.actions
          = some [ListenerAction.forward tg] ∧
      (mkStagingStack props).taskDef.containers = [c] ∧
      c.portMappings.map PortMapping.containerPort = [3000] ∧
      tg.registeredPort = some 3000 ∧
      tg.healthCheck = some { path := "/", healthyHttpCodes := "200" } := by
  exact ⟨_, _, rfl, rfl, rfl, rfl, rfl⟩

/-- C3: with every optional field omitted the defaults apply: address
block 10.0.0.0/16, exactly 2 zones, and each zone contributes one /24
public and one /24 private subnet. -/
theorem C3_default_descriptor :
    (mkStagingStack defaultProps).vpc.cidr = "10.0.0.0/16" ∧
    (mkStagingStack defaultProps).vpc.maxAzs = 2 ∧
    (mkStagingStack defaultProps).vpc.publicSubnets =
      [ { name := "Public", az := 0, subnetType := SubnetType.PUBLIC, cidrMask := 24 },
        { name := "Public", az := 1, subnetType := SubnetType.PUBLIC, cidrMask := 24 } ] ∧
    (mkStagingStack defaultProps).vpc.privateSubnets =
      [ { name := "Private", az := 0, subnetType := SubnetType.PRIVATE_WITH_NAT, cidrMask := 24 },
        { name := "Private", az := 1, subnetType := SubnetType.PRIVATE_WITH_NAT, cidrMask := 24 } ] :=
  ⟨rfl, rfl, rfl, rfl⟩

/-- C4: in every descriptor instance the primary queue is bound to
exactly one dead letter queue (the declared DLQ), with the fixed
redelivery threshold 3, which is a positive integer. -/
theorem C4_redelivery_threshold (props : StagingStackProps) :
    ∃ b : DeadLetterQueue,
      (mkStagingStack props).queue.deadLetterQueue = some b ∧
      b.queueName = (mkStagingStack props).dlq.queueName ∧
      b.maxReceiveCount = 3 ∧
      1 ≤ b.maxReceiveCount :=
  ⟨{ queueName := "lizdms-staging-processing-dlq", maxReceiveCount := 3 },
   rfl, rfl, rfl, by decide⟩

/-- C5: every descriptor instance has exactly one HTTPS listener
(port 443, bound to the certificate reference) and exactly one HTTP
listener (port 80), and the only action of the HTTP listener is a
permanent redirect to HTTPS on port 443. -/
theorem C5_listeners (props : StagingStackProps) :
    ((mkStagingStack props).listeners.filter (fun l => l.port == 443)).length = 1 ∧
    ((mkStagingStack props).listeners.filter (fun l => l.port == 80)).length = 1 ∧
    (mkStagingStack props).httpsListener.map Listener.certificates
        = some [certificateArn] ∧
    (mkStagingStack props).httpListener.map Listener.actions
        = some [ListenerAction.redirect "HTTPS" "443" true] :=
  ⟨rfl, rfl, rfl, rfl⟩

/-- C6: the task role policy consists of exactly one statement whose
actions are exactly object read, object write and message send, scoped
to the * resource; no other action is granted. -/
theorem C6_task_policy (props : StagingStackProps) :
    (mkStagingStack props).taskDef.taskRolePolicy =
      [ { actions := ["s3:GetObject", "s3:PutObject", "sqs:SendMessage"],
          resources := ["*"] } ] :=
  rfl

/-- C7: for every configuration the descriptor declares exactly one
NAT gateway, regardless of the zone count, and a subnet is routed
through it exactly when it is one of the private subnets. -/
theorem C7_single_nat_egress (props : StagingStackProps) :
    (mkStagingStack props).vpc.natGateways = 1 ∧
    ∀ sub ∈ (mkStagingStack props).vpc.subnets,
      (sub.routedViaNat = true ↔ sub ∈ (mkStagingStack props).vpc.privateSubnets) := by
  refine ⟨rfl, fun sub hsub => ?_⟩
  simp [Subnet.routedViaNat, Vpc.privateSubnets, List.mem_filter, hsub]

/-- Witness for C7 at the all-omitted configuration and the first
private subnet. -/
theorem C7_single_nat_egress_witness :
    (mkStagingStack defaultProps).vpc.natGateways = 1 ∧
    (Subnet.routedViaNat
        { name := "Private", az := 0, subnetType := SubnetType.PRIVATE_WITH_NAT,
          cidrMask := 24 } = true ↔
      ({ name := "Private", az := 0, subnetType := SubnetType.PRIVATE_WITH_NAT,
          cidrMask := 24 } : Subnet) ∈ (mkStagingStack defaultProps).vpc.privateSubnets) :=
  ⟨(C7_single_nat_egress defaultProps).1,
   (C7_single_nat_egress defaultProps).2
     { name := "Private", az := 0, subnetType := SubnetType.PRIVATE_WITH_NAT, cidrMask := 24 }
     (by decide)⟩

/-- C8: descriptor construction never fails (the constructor performs
no validation of its own), and each omitted optional field is fully
substituted by its default value. -/
theorem C8_omitted_fields_default (props : StagingStackProps) :
    synthStagingStack props = Except.ok (mkStagingStack props) ∧
    (props.vpcCidr = none → (mkStagingStack props).vpc.cidr = defaultVpcCidr) ∧
    (props.publicSubnetMask = none →
      ∀ sub ∈ (mkStagingStack props).vpc.publicSubnets,
        sub.cidrMask = defaultPublicSubnetMask) ∧
    (props.privateSubnetMask = none →
      ∀ sub ∈ (mkStagingStack props).vpc.privateSubnets,
        sub.cidrMask = defaultPrivateSubnetMask) ∧
    (props.maxAzs = none → (mkStagingStack props).vpc.maxAzs = defaultMaxAzs) := by
  refine ⟨rfl, ?_, ?_, ?_, ?_⟩
  · intro h
    show props.vpcCidr.getD defaultVpcCidr = defaultVpcCidr
    rw [h]
    rfl
  · intro h sub hsub
    rw [mkStagingStack_publicSubnets] at hsub
    obtain ⟨az, _, rfl⟩ := List.mem_map.mp hsub
    show props.publicSubnetMask.getD defaultPublicSubnetMask = defaultPublicSubnetMask
    rw [h]
    rfl
  · intro h sub hsub
    rw [mkStagingStack_privateSubnets] at hsub
    obtain ⟨az, _, rfl⟩ := List.mem_map.mp hsub
    show props.privateSubnetMask.getD defaultPrivateSubnetMask = defaultPrivateSubnetMask
    rw [h]
    rfl
  · intro h
    show props.maxAzs.getD defaultMaxAzs = defaultMaxAzs
    rw [h]
    rfl

/-- Witness for C8 at the all-omitted configuration, discharging each
omission hypothesis. -/
theorem C8_omitted_fields_default_witness :
    (mkStagingStack defaultProps).vpc.cidr = defaultVpcCidr ∧
    ({ name := "Public", az := 0, subnetType := SubnetType.PUBLIC,
        cidrMask := 24 } : Subnet).cidrMask = defaultPublicSubnetMask ∧
    ({ name := "Private", az := 0, subnetType := SubnetType.PRIVATE_WITH_NAT,
        cidrMask := 24 } : Subnet).cidrMask = defaultPrivateSubnetMask ∧
    (mkStagingStack defaultProps).vpc.maxAzs = defaultMaxAzs :=
  ⟨(C8_omitted_fields_default defaultProps).2.1 rfl,
   (C8_omitted_fields_default defaultProps).2.2.1 rfl
     { name := "Public", az := 0, subnetType := SubnetType.PUBLIC, cidrMask := 24 }
     (by decide),
   (C8_omitted_fields_default defaultProps).2.2.2.1 rfl
     { name := "Private", az := 0, subnetType := SubnetType.PRIVATE_WITH_NAT, cidrMask := 24 }
     (by decide),
   (C8_omitted_fields_default defaultProps).2.2.2.2 rfl⟩

/-- C9: all non network resource parameters of the descriptor are
unchanged between any two configurations: the buckets, the queues, the
redelivery threshold, the task definition (CPU 256, memory 512, one
container exposing port 3000) and the service (1 replica) are
constants not influenced by the configuration. -/
theorem C9_config_independence (p1 p2 : StagingStackProps) :
    (mkStagingStack p1).docsBucket = (mkStagingStack p2).docsBucket ∧
    (mkStagingStack p1).outputsBucket = (mkStagingStack p2).outputsBucket ∧
    (mkStagingStack p1).dlq = (mkStagingStack p2).dlq ∧
    (mkStagingStack p1).queue = (mkStagingStack p2).queue ∧
    (mkStagingStack p1).redeliveryThreshold = (mkStagingStack p2).redeliveryThreshold ∧
    (mkStagingStack p1).taskDef = (mkStagingStack p2).taskDef ∧
    (mkStagingStack p1).service = (mkStagingStack p2).service ∧
    (mkStagingStack p1).docsBucket.bucketName = "lizdms-staging-docs" ∧
    (mkStagingStack p1).outputsBucket.bucketName = "lizdms-staging-outputs" ∧
    (mkStagingStack p1).dlq.queueName = "lizdms-staging-processing-dlq" ∧
    (mkStagingStack p1).queue.queueName = "lizdms-staging-processing" ∧
    (mkStagingStack p1).redeliveryThreshold = some 3 ∧
    (mkStagingStack p1).taskDef.cpu = 256 ∧
    (mkStagingStack p1).taskDef.memoryLimitMiB = 512 ∧
    ((mkStagingStack p1).taskDef.containers.map (fun c => c.portMappings))
        = [[{ containerPort := 3000 }]] ∧
    (mkStagingStack p1).service.desiredCount = 1 :=
  ⟨rfl, rfl, rfl, rfl, rfl, rfl, rfl, rfl, rfl, rfl, rfl, rfl, rfl, rfl, rfl, rfl⟩

/-- C10: every descriptor instance holds exactly two queues, the dead
letter queue has no dead letter binding of its own, and so the
redelivery chain has depth one: the target of any dead letter binding
is a queue with no further binding. -/
theorem C10_chain_depth_one (props : StagingStackProps) :
    (mkStagingStack props).queues.length = 2 ∧
    (mkStagingStack props).dlq.deadLetterQueue = none ∧
    ∀ q ∈ (mkStagingStack props).queues, ∀ b : DeadLetterQueue,
      q.deadLetterQueue = some b →
      ∀ q2 ∈ (mkStagingStack props).queues, q2.queueName = b.queueName →
        q2.deadLetterQueue = none := by
  refine ⟨rfl, rfl, ?_⟩
  intro q hq b hb q2 hq2 hname
  simp only [mkStagingStack, StagingStack.queues, List.mem_cons,
    List.not_mem_nil, or_false] at hq hq2
  rcases hq with rfl | rfl
  · simp at hb
  · rcases hq2 with rfl | rfl
    · rfl
    · injection hb with hb
      rw [← hb] at hname
      simp at hname

/-- Witness for C10 at the all-omitted configuration: applying the
depth-one property to the primary queue and its dead letter target. -/
theorem C10_chain_depth_one_witness :
    (mkStagingStack defaultProps).queues.length = 2 ∧
    ({ queueName := "lizdms-staging-processing-dlq",
        deadLetterQueue := none } : Queue).deadLetterQueue = none :=
  ⟨(C10_chain_depth_one defaultProps).1,
   (C10_chain_depth_one defaultProps).2.2
     { queueName := "lizdms-staging-processing",
       deadLetterQueue := some { queueName := "lizdms-staging-processing-dlq",
                                 maxReceiveCount := 3 } }
     (by decide)
     { queueName := "lizdms-staging-processing-dlq", maxReceiveCount := 3 }
     rfl
     { queueName := "lizdms-staging-processing-dlq", deadLetterQueue := none }
     (by decide)
     rfl⟩

end DmsInfra
